import Mathlib

/-!
Verification development for the shamai-ai multi-source scraping engine.

The Python sources are shallowly embedded: pure fragments become Lean
functions, the effectful calls (browser, Supabase, sleep) become explicit
oracle parameters, and `try/except` blocks become case splits on those
oracles.  Field names and control flow follow the Python files
`src/scrapers/base_scraper.py`, `src/scrapers/onmap_scraper.py`,
`src/scrapers/yad2_scraper.py`, `src/scrapers/madlan_scraper.py` and
`src/orchestrator.py`.
-/

namespace ShamaiAI

/-- Drop leading and trailing whitespace of a character list. -/
def stripChars (cs : List Char) : List Char :=
  ((cs.dropWhile Char.isWhitespace).reverse.dropWhile Char.isWhitespace).reverse

/-- Python `str.strip()` on the strings these scrapers handle (ASCII
whitespace). -/
def pyStrip (s : String) : String := String.mk (stripChars s.data)

/-- Split a character list on a separator character, keeping empty
segments, as Python `str.split(sep)` does. -/
def splitOnCharAux (sep : Char) : List Char → List Char → List (List Char)
  | [], acc => [acc.reverse]
  | c :: rest, acc =>
    if c = sep then acc.reverse :: splitOnCharAux sep rest []
    else splitOnCharAux sep rest (c :: acc)

/-- Python `s.split(',')`. -/
def pySplitComma (s : String) : List String :=
  (splitOnCharAux ',' s.data []).map String.mk

/-- Python `sep.join(parts)`. -/
def joinWith (sep : String) : List String → String
  | [] => ""
  | [x] => x
  | x :: rest => x ++ sep ++ joinWith sep rest

/-- Python `str(x)` for an optional string: `None` prints as `"None"`. -/
def pyShowOptStr (o : Option String) : String :=
  match o with
  | none => "None"
  | some s => s

/-- Python `str(x)` for an optional int: `None` prints as `"None"`. -/
def pyShowOptInt (o : Option Int) : String :=
  match o with
  | none => "None"
  | some n => toString n

/-- Numeric value of a decimal digit string, as Python `int(...)` computes it. -/
def digitsToNat (s : String) : Nat :=
  s.data.foldl (fun a c => a * 10 + (c.toNat - ('0').toNat)) 0

/-- Python `re.sub(r'[^\d]', '', s)`: drop every non-digit character. -/
def stripNonDigits (s : String) : String :=
  String.mk (s.data.filter Char.isDigit)

/-- First maximal digit run in a string: `re.findall(r'\d+', s)[0]` when one exists. -/
def firstDigitRunAux : List Char → Option String
  | [] => none
  | c :: rest =>
    if c.isDigit then some (String.mk ((c :: rest).takeWhile Char.isDigit))
    else firstDigitRunAux rest

/-- First maximal digit run of a string, if any. -/
def firstDigitRun (s : String) : Option String := firstDigitRunAux s.data

/-- The `Property` dataclass of `base_scraper.py` (the canonical Listing).
Python floats are modelled as rationals and the scrape timestamp as an
abstract tick; no claim depends on float rounding or wall-clock time. -/
structure Property where
  source : String
  external_id : Option String := none
  listing_type : String := ""
  property_type : Option String := none
  address_street : Option String := none
  address_city : Option String := none
  address_neighborhood : Option String := none
  lat : Option Rat := none
  long : Option Rat := none
  price_current : Option Int := none
  price_original : Option Int := none
  currency : String := "ILS"
  rooms : Option Rat := none
  square_meters : Option Int := none
  floor : Option Int := none
  building_floors : Option Int := none
  year_built : Option Int := none
  parking_spots : Int := 0
  features : Option (List (String × String)) := none
  construction_status : Option String := none
  images : Option (List String) := none
  listing_url : Option String := none
  description_he : Option String := none
  description_en : Option String := none
  agent_name : Option String := none
  agent_phone : Option String := none
  agent_email : Option String := none
  status : String := "active"
  days_on_market : Int := 0
  scraped_at : Option Nat := none
deriving DecidableEq, Repr

/-- One stored row of the `il_properties` table: a surrogate `id` plus the
persisted listing fields. -/
structure Row where
  id : Nat
  prop : Property
deriving DecidableEq, Repr

/-- The `il_properties` store: its rows and the next fresh surrogate id. -/
structure DB where
  rows : List Row
  nextId : Nat
deriving DecidableEq, Repr

/-- The counts dict returned by `save_to_db`. -/
structure SaveCounts where
  new : Nat
  updated : Nat
  errors : Nat
deriving DecidableEq, Repr

/-- One Supabase operation issued by `save_to_db`, recorded so that
"contacting the store" is observable. -/
inductive DbOp where
  | select
  | update
  | insert
deriving DecidableEq, Repr

/-- The natural-key lookup of `save_to_db`:
`.eq('source', prop.source).eq('external_id', prop.external_id)`. -/
def matchesKey (p : Property) (r : Row) : Bool :=
  r.prop.source == p.source && r.prop.external_id == p.external_id

/-- Body of the per-listing `try` block of `save_to_db`: look the listing up
by natural key, then update the matched row by its surrogate id or insert a
fresh row.  `fails` models the Supabase client raising for this listing,
caught by the `except` which only bumps the error counter. -/
def saveOne (fails : Bool) (db : DB) (p : Property) : DB × SaveCounts × List DbOp :=
  if fails then
    (db, ⟨0, 0, 1⟩, [])
  else
    match db.rows.filter (matchesKey p) with
    | r :: _ =>
      (⟨db.rows.map (fun row => if row.id == r.id then ⟨row.id, p⟩ else row),
          db.nextId⟩,
        ⟨0, 1, 0⟩, [DbOp.select, DbOp.update])
    | [] =>
      (⟨db.rows ++ [⟨db.nextId, p⟩], db.nextId + 1⟩, ⟨1, 0, 0⟩, [DbOp.select, DbOp.insert])

/-- The per-listing loop of `save_to_db`, indexed so the failure oracle can
distinguish listings by position. -/
def saveLoop (failAt : Nat → Bool) (i : Nat) (db : DB) :
    List Property → DB × SaveCounts × List DbOp
  | [] => (db, ⟨0, 0, 0⟩, [])
  | p :: rest =>
    let s := saveOne (failAt i) db p
    let t := saveLoop failAt (i + 1) s.1 rest
    (t.1,
      ⟨s.2.1.new + t.2.1.new, s.2.1.updated + t.2.1.updated,
        s.2.1.errors + t.2.1.errors⟩,
      s.2.2 ++ t.2.2)

/-- Model of `BaseIsraeliScraper.save_to_db`: early return on an empty batch, else the
per-listing upsert loop. -/
def saveToDb (failAt : Nat → Bool) (db : DB) (props : List Property) :
    DB × SaveCounts × List DbOp :=
  match props with
  | [] => (db, ⟨0, 0, 0⟩, [])
  | _ => saveLoop failAt 0 db props

/-- A failure oracle under which every Supabase call succeeds. -/
def noFail : Nat → Bool := fun _ => false

/-- Address decomposition of `OnMapScraper._parse_property_card`
(onmap_scraper.py lines 226-234): strip the found text, and when the result
is non-empty and contains a comma (equivalently, splits into at least two
comma segments), city is the stripped last comma segment and street is the
stripped FIRST segment.  Returns `(street, city)`. -/
def onmapDecomposeAddress (addressText : Option String) :
    Option String × Option String :=
  match addressText with
  | none => (none, none)
  | some raw =>
    let street := pyStrip raw
    if street ≠ "" ∧ 2 ≤ (pySplitComma street).length then
      let parts := pySplitComma street
      (some (pyStrip (parts.headD "")), some (pyStrip (parts.getLastD "")))
    else
      (some street, none)

/-- Address decomposition of `Yad2Scraper._parse_property_card`
(yad2_scraper.py lines 228-240): strip each comma segment; with at least two
segments, city is the last and street is the FIRST segment. -/
def yad2DecomposeAddress (locationText : Option String) :
    Option String × Option String :=
  match locationText with
  | none => (none, none)
  | some raw =>
    let address := pyStrip raw
    if address ≠ "" then
      let parts := (pySplitComma address).map pyStrip
      if 2 ≤ parts.length then
        (some (parts.headD ""), some (parts.getLastD ""))
      else
        (some address, none)
    else
      (some address, none)

/-- Address decomposition of `MadlanScraper._parse_property_card`
(madlan_scraper.py lines 225-236): strip each comma segment; with at least
two segments, city is the last and street is the remaining segments joined
back with a comma and a space. -/
def madlanDecomposeAddress (addressText : Option String) :
    Option String × Option String :=
  match addressText with
  | none => (none, none)
  | some raw =>
    let address := pyStrip raw
    if address ≠ "" then
      let parts := (pySplitComma address).map pyStrip
      if 2 ≤ parts.length then
        (some (joinWith ", " parts.dropLast), some (parts.getLastD ""))
      else
        (some address, none)
    else
      (some address, none)

/-- Match of `re.search(r'/(\d+)$', href)` used by Yad2: a slash followed by
one or more digits at the very end of the hyperlink path; returns the digit
group. -/
def yad2LinkId (href : String) : Option String :=
  let rev := href.data.reverse
  let ds := rev.takeWhile Char.isDigit
  if ds.isEmpty then none
  else
    match rev.drop ds.length with
    | '/' :: _ => some (String.mk ds.reverse)
    | _ => none

/-- The characters of the Madlan hyperlink pattern `/listing/`. -/
def madlanPat : List Char := "/listing/".data

/-- Match of `re.search(r'/listing/(\d+)', href)` used by Madlan: leftmost
occurrence of `/listing/` followed by at least one digit; returns the
maximal digit group after it. -/
def madlanLinkIdAux : List Char → Option String
  | [] => none
  | c :: rest =>
    if madlanPat.isPrefixOf (c :: rest) then
      let after := (c :: rest).drop madlanPat.length
      let ds := after.takeWhile Char.isDigit
      if ds.isEmpty then madlanLinkIdAux rest else some (String.mk ds)
    else madlanLinkIdAux rest

/-- Madlan hyperlink id match over a string. -/
def madlanLinkId (href : String) : Option String := madlanLinkIdAux href.data

/-- OnMap external id (onmap_scraper.py line 271): always the synthesized
composite `onmap_{listing_type}_{street}_{price}_{sqm}`; the card's
hyperlink is never consulted. -/
def onmapExternalId (listing_type : String) (street : Option String)
    (price sqm : Option Int) : String :=
  "onmap_" ++ listing_type ++ "_" ++ pyShowOptStr street ++ "_" ++
    pyShowOptInt price ++ "_" ++ pyShowOptInt sqm

/-- Yad2 external id resolution (yad2_scraper.py lines 266-276): the digit
group of an id-bearing hyperlink when one matches, otherwise the composite
`yad2_{listing_type}_{street}_{price}_{sqm}`. -/
def yad2ExternalId (linkHref : Option String) (listing_type : String)
    (street : Option String) (price sqm : Option Int) : String :=
  let fromLink :=
    match linkHref with
    | some href => (yad2LinkId href).map (fun n => "yad2_" ++ n)
    | none => none
  match fromLink with
  | some e => e
  | none =>
    "yad2_" ++ listing_type ++ "_" ++ pyShowOptStr street ++ "_" ++
      pyShowOptInt price ++ "_" ++ pyShowOptInt sqm

/-- Madlan external id resolution (madlan_scraper.py lines 262-271): the
digit group of a `/listing/<digits>` hyperlink when one matches, otherwise
the composite `madlan_{listing_type}_{street}_{price}` (no area). -/
def madlanExternalId (linkHref : Option String) (listing_type : String)
    (street : Option String) (price : Option Int) : String :=
  let fromLink :=
    match linkHref with
    | some href => (madlanLinkId href).map (fun n => "madlan_" ++ n)
    | none => none
  match fromLink with
  | some e => e
  | none =>
    "madlan_" ++ listing_type ++ "_" ++ pyShowOptStr street ++ "_" ++
      pyShowOptInt price

/-- The DOM probes one property card answers, one field per query the parse
functions issue. -/
structure Card where
  linkHref : Option String := none
  priceText : Option String := none
  addressText : Option String := none
  areaText : Option String := none
deriving DecidableEq, Repr

/-- OnMap price extraction (onmap_scraper.py lines 218-223): strip non-digit
characters; an empty residue yields an absent price. -/
def onmapPrice (priceText : Option String) : Option Int :=
  match priceText with
  | none => none
  | some t =>
    let d := stripNonDigits t
    if d = "" then none else some (Int.ofNat (digitsToNat d))

/-- OnMap area extraction (onmap_scraper.py lines 249-254): first digit run
of the area text. -/
def onmapSqm (areaText : Option String) : Option Int :=
  match areaText with
  | none => none
  | some t => (firstDigitRun t).map (fun d => Int.ofNat (digitsToNat d))

/-- External id of an OnMap card as `_parse_property_card` computes it: the
composite of listing type, parsed street, parsed price and parsed area.  The
card's `linkHref` is not an input of the OnMap computation. -/
def onmapCardExternalId (c : Card) (listing_type : String) : String :=
  let (street, _) := onmapDecomposeAddress c.addressText
  onmapExternalId listing_type street (onmapPrice c.priceText) (onmapSqm c.areaText)

/-- What the rendering surface shows during one iteration of the OnMap
scroll loop: the first element count, whether the end-of-results marker is
rendered after the scroll, the re-count, and whether the surface raises
somewhere in the iteration body. -/
structure ScrollObs where
  count : Nat
  bottom : Bool
  recount : Nat
  fails : Bool
deriving DecidableEq, Repr

/-- The `max_scrolls` computation of `_scroll_to_load_all`
(onmap_scraper.py line 132): Python `limit if limit else 50`, so an absent
OR zero (falsy) limit gives the default 50. -/
def maxScrolls (limit : Option Nat) : Nat :=
  match limit with
  | none => 50
  | some n => if n = 0 then 50 else n

/-- Iterations of the `while scroll_count < max_scrolls` loop of
`_scroll_to_load_all` (onmap_scraper.py lines 136-176), counted as body
entries; the fuel is the remaining scroll budget.  Break conditions in
source order: body exception, zero rendered elements, end-of-results
marker, unchanged re-count. -/
def scrollIters (beh : Nat → ScrollObs) : Nat → Nat → Nat
  | _, 0 => 0
  | t, fuel + 1 =>
    let o := beh t
    if o.fails then 1
    else if o.count = 0 then 1
    else if o.bottom then 1
    else if o.recount = o.count then 1
    else 1 + scrollIters beh (t + 1) fuel

/-- Number of loop iterations `_scroll_to_load_all` performs against a given
surface behavior and limit. -/
def scrollToLoadAllIters (beh : Nat → ScrollObs) (limit : Option Nat) : Nat :=
  scrollIters beh 0 (maxScrolls limit)

/-- A surface behavior that never renders the end marker, always reports
strictly more elements after every scroll, and never raises. -/
def greedySurface : Nat → ScrollObs :=
  fun t => ⟨t + 1, false, t + 2, false⟩

/-- What one page request observes in the paginated loops of Yad2 and
Madlan: how many listings `_scrape_page` extracts, and whether the loop body
raises for that page (caught by the per-page `except`, which breaks). -/
structure PageObs where
  yield : Nat
  fails : Bool
deriving DecidableEq, Repr

/-- The `for page in range(1, max_pages + 1)` loop shared by
`Yad2Scraper._scrape_listing_type` (lines 115-134) and
`MadlanScraper._scrape_listing_type` (lines 122-141), recorded as the list
of page numbers actually requested; a zero-yield page or a body exception
is requested and then stops the loop. -/
def pagesRequestedAux (beh : Nat → PageObs) : Nat → Nat → List Nat
  | _, 0 => []
  | page, fuel + 1 =>
    let o := beh page
    if o.fails then [page]
    else if o.yield = 0 then [page]
    else page :: pagesRequestedAux beh (page + 1) fuel

/-- Pages requested by one paginated scrape of one listing type. -/
def pagesRequested (beh : Nat → PageObs) (maxPages : Nat) : List Nat :=
  pagesRequestedAux beh 1 maxPages

/-- The `max_pages=limit or 5` computation of `Yad2Scraper.scrape` (line
78): Python `or`, so an absent or zero limit gives 5. -/
def yad2MaxPages (limit : Option Nat) : Nat :=
  match limit with
  | none => 5
  | some n => if n = 0 then 5 else n

/-- The `max_pages=limit or 3` computation of `MadlanScraper.scrape`
(line 76). -/
def madlanMaxPages (limit : Option Nat) : Nat :=
  match limit with
  | none => 3
  | some n => if n = 0 then 3 else n

/-- Listing-type keys of `OnMapScraper.URLS`. -/
def onmapUrlKeys : List String := ["buy", "rent", "commercial", "new_homes"]

/-- Listing-type keys of `Yad2Scraper.URLS`. -/
def yad2UrlKeys : List String := ["buy", "rent", "commercial"]

/-- Listing-type keys of `MadlanScraper.URLS`. -/
def madlanUrlKeys : List String := ["buy", "rent"]

/-- Result of one adapter `scrape` call: the concatenated listings, the
internal error counter, and the listing types warned about as unknown. -/
structure ScrapeResult (α : Type) where
  listings : List α
  errors : Nat
  warnings : List String
deriving Repr

/-- The listing-type loop shared by the three `scrape` implementations
(e.g. onmap_scraper.py lines 68-94): a type outside the adapter's `URLS`
logs a warning and is skipped; a known type runs `_scrape_listing_type`
inside `try`, an exception incrementing the error counter; results are
concatenated in order.  The loop body never re-raises, so the whole loop is
a total function. -/
def scrapeLoop (known : List String) (action : String → Except String (List α)) :
    List String → ScrapeResult α
  | [] => ⟨[], 0, []⟩
  | lt :: rest =>
    if known.contains lt then
      match action lt with
      | .ok props =>
        let r := scrapeLoop known action rest
        ⟨props ++ r.listings, r.errors, r.warnings⟩
      | .error _ =>
        let r := scrapeLoop known action rest
        ⟨r.listings, r.errors + 1, r.warnings⟩
    else
      let r := scrapeLoop known action rest
      ⟨r.listings, r.errors, lt :: r.warnings⟩

/-- The client-side city filter of `OnMapScraper.scrape` (lines 82-83):
`[p for p in properties if p.address_city in cities]` when cities are
given. -/
def cityFilter (cities : Option (List String)) (ps : List Property) : List Property :=
  match cities with
  | some cs => ps.filter (fun p =>
      match p.address_city with
      | some c => cs.contains c
      | none => false)
  | none => ps

/-- Model of `OnMapScraper.scrape` over its per-type action, including the
client-side city filter applied inside the `try` block (lines 82-83) and
the default listing-type set (lines 63-64). -/
def onmapScrape (action : String → Except String (List Property))
    (cities : Option (List String)) (listing_types : Option (List String)) :
    ScrapeResult Property :=
  let lts := listing_types.getD ["buy", "rent", "commercial", "new_homes"]
  scrapeLoop onmapUrlKeys (fun lt => (action lt).map (cityFilter cities)) lts

/-- Model of `Yad2Scraper.scrape` over its per-type action and the default
listing-type set `['buy', 'rent']` (lines 62-63). -/
def yad2Scrape (action : String → Except String (List Property))
    (listing_types : Option (List String)) : ScrapeResult Property :=
  let lts := listing_types.getD ["buy", "rent"]
  scrapeLoop yad2UrlKeys action lts

/-- Model of `MadlanScraper.scrape` over its per-type action and the default
listing-type set `['buy', 'rent']` (lines 60-61). -/
def madlanScrape (action : String → Except String (List Property))
    (listing_types : Option (List String)) : ScrapeResult Property :=
  let lts := listing_types.getD ["buy", "rent"]
  scrapeLoop madlanUrlKeys action lts

/-- Sleep durations (in seconds) emitted by the paginated page loop: after
every non-empty, non-failing page the loop runs the hard-coded
`await asyncio.sleep(2)` (yad2_scraper.py line 130, madlan_scraper.py line
137). -/
def pageDelaysAux (beh : Nat → PageObs) : Nat → Nat → List Nat
  | _, 0 => []
  | page, fuel + 1 =>
    let o := beh page
    if o.fails then []
    else if o.yield = 0 then []
    else 2 :: pageDelaysAux beh (page + 1) fuel

/-- Sleep durations of one paginated scrape of one listing type. -/
def pageDelays (beh : Nat → PageObs) (maxPages : Nat) : List Nat :=
  pageDelaysAux beh 1 maxPages

/-- Sleep durations emitted by a paginated adapter's full `scrape` call:
per known listing type, the page-loop delays followed by the
`await self.rate_limit()` delay of `delay_seconds` (base_scraper.py lines
260-262); unknown types emit nothing. -/
def paginatedDelayTrace (known : List String) (delaySeconds : Nat)
    (beh : String → Nat → PageObs) (maxPages : Nat) :
    List String → List Nat
  | [] => []
  | lt :: rest =>
    if known.contains lt then
      pageDelays (beh lt) maxPages ++ delaySeconds ::
        paginatedDelayTrace known delaySeconds beh maxPages rest
    else
      paginatedDelayTrace known delaySeconds beh maxPages rest

/-- Delay trace of `Yad2Scraper.scrape` for given listing types. -/
def yad2DelayTrace (delaySeconds : Nat) (beh : String → Nat → PageObs)
    (limit : Option Nat) (lts : List String) : List Nat :=
  paginatedDelayTrace yad2UrlKeys delaySeconds beh (yad2MaxPages limit) lts

/-- Delay trace of `MadlanScraper.scrape` for given listing types. -/
def madlanDelayTrace (delaySeconds : Nat) (beh : String → Nat → PageObs)
    (limit : Option Nat) (lts : List String) : List Nat :=
  paginatedDelayTrace madlanUrlKeys delaySeconds beh (madlanMaxPages limit) lts

/-- The pipeline aggregate stats dict of `ShamaiAIOrchestrator`. -/
structure OrchStats where
  sources_completed : List String
  sources_failed : List String
  total_properties : Nat
  errors : List String
deriving DecidableEq, Repr

/-- Initial orchestrator stats (orchestrator.py lines 50-57). -/
def orchInit : OrchStats := ⟨[], [], 0, []⟩

/-- One `stage_N_scrape_<source>` of the orchestrator (e.g.
`stage_3_scrape_yad2`, orchestrator.py lines 113-138): the scraper
invocation inside `try` either returns a property count or raises; on
success the source joins `sources_completed` and the count is added, on
exception the `except` records the source under `sources_failed`, appends
`"<source>: <message>"` to the error list, and returns normally — the
exception is never re-raised. -/
def stageScrape (source : String) (outcome : Except String Nat)
    (st : OrchStats) : OrchStats :=
  match outcome with
  | .ok n =>
    { st with
      sources_completed := st.sources_completed ++ [source]
      total_properties := st.total_properties + n }
  | .error e =>
    { st with
      sources_failed := st.sources_failed ++ [source]
      errors := st.errors ++ [source ++ ": " ++ e] }

/-- Model of `ShamaiAIOrchestrator.run` (orchestrator.py lines 218-236): stage 1 may
raise (missing configuration), which escapes the per-stage isolation, is
recorded as a pipeline error and re-raised; the three scrape stages run in
order and never raise; stages 5-7 are stubs and `stage_7_finalize` returns
the aggregate stats. -/
def orchRun (initOutcome : Except String Unit)
    (onmap yad2 madlan : Except String Nat) : Except String OrchStats :=
  match initOutcome with
  | .error e => .error e
  | .ok _ =>
    let s1 := stageScrape "onmap" onmap orchInit
    let s2 := stageScrape "yad2" yad2 s1
    let s3 := stageScrape "madlan" madlan s2
    .ok s3

/-- The stats dict of one `BaseIsraeliScraper` run that feeds the run log. -/
structure BaseStats where
  properties_scraped : Nat
  properties_new : Nat
  properties_updated : Nat
  errors : Nat
deriving DecidableEq, Repr

/-- The run-log record built by `log_scrape_session` (base_scraper.py lines
239-252); fields not bearing on the claims (timestamps, trigger ids) are
omitted from the record the insert receives. -/
structure LogRecord where
  source : String
  listing_type : Option String
  properties_scraped : Nat
  properties_new : Nat
  properties_updated : Nat
  errors_count : Nat
  status : String
deriving DecidableEq, Repr

/-- The record `log_scrape_session` builds for a source and its stats; the
status field is `'completed' if self.stats['errors'] == 0 else
'completed_with_errors'` (line 249). -/
def logRecordOf (source : String) (listing_type : Option String)
    (stats : BaseStats) : LogRecord :=
  { source := source
    listing_type := listing_type
    properties_scraped := stats.properties_scraped
    properties_new := stats.properties_new
    properties_updated := stats.properties_updated
    errors_count := stats.errors
    status := if stats.errors = 0 then "completed" else "completed_with_errors" }

/-- Model of `BaseIsraeliScraper.log_scrape_session` (lines 232-258): the whole body
sits in a `try` whose `except` only logs, so the call always returns
normally; it yields the inserted record, or `none` when the insert raised
and the failure was swallowed. -/
def logScrapeSession (source : String) (listing_type : Option String)
    (stats : BaseStats) (insertFails : Bool) : Option LogRecord :=
  if insertFails then none else some (logRecordOf source listing_type stats)

/-- Model of `BaseIsraeliScraper.run` (lines 264-315) with the effectful calls as
oracles: scraping either raises (re-raised by `run` after counting the
error) or yields listings; a non-empty batch is saved and the counts merged
into the stats; `log_scrape_session` is then called and its result
discarded, its own failures having been swallowed. -/
def baseRun (source : String) (scrapeOutcome : Except String (List Property))
    (failAt : Nat → Bool) (db : DB) (logInsertFails : Bool) :
    Except String BaseStats :=
  match scrapeOutcome with
  | .error e => .error e
  | .ok props =>
    let stats0 : BaseStats := ⟨props.length, 0, 0, 0⟩
    let stats :=
      match props with
      | [] => stats0
      | _ =>
        let counts := (saveToDb failAt db props).2.1
        { stats0 with
          properties_new := counts.new
          properties_updated := counts.updated
          errors := counts.errors }
    let _ := logScrapeSession source none stats logInsertFails
    .ok stats

/-- Concrete listing used to exercise the persistence gateway. -/
def propEx : Property := { source := "onmap", external_id := some "onmap_1" }

/-- The same natural key as `propEx` with a changed price. -/
def propEx2 : Property :=
  { source := "onmap", external_id := some "onmap_1", price_current := some 100 }

theorem matchesKey_congr (p p' : Property) (hsrc : p'.source = p.source)
    (hid : p'.external_id = p.external_id) : matchesKey p' = matchesKey p := by
  funext r
  simp [matchesKey, hsrc, hid]

theorem matchesKey_same (p q : Property) (i : Nat) (hsrc : q.source = p.source)
    (hid : q.external_id = p.external_id) : matchesKey p ⟨i, q⟩ = true := by
  simp [matchesKey, hsrc, hid]

theorem saveOne_counts (fails : Bool) (db : DB) (p : Property) :
    (saveOne fails db p).2.1.new + (saveOne fails db p).2.1.updated +
      (saveOne fails db p).2.1.errors = 1 := by
  unfold saveOne
  by_cases h : fails
  · simp [h]
  · simp only [h, if_false, Bool.false_eq_true]
    cases db.rows.filter (matchesKey p) <;> simp

theorem saveLoop_counts (failAt : Nat → Bool) (i : Nat) (db : DB)
    (props : List Property) :
    (saveLoop failAt i db props).2.1.new + (saveLoop failAt i db props).2.1.updated +
      (saveLoop failAt i db props).2.1.errors = props.length := by
  induction props generalizing i db with
  | nil => simp [saveLoop]
  | cons p rest ih =>
    have h1 := saveOne_counts (failAt i) db p
    have h2 := ih (i + 1) (saveOne (failAt i) db p).1
    simp only [saveLoop, List.length_cons]
    omega

/-- C10: for every batch handed to `save_to_db` the returned counts
partition the batch — `new + updated + errors` equals the batch length —
and the empty batch takes the early return: all-zero counts, the store
untouched and no store operation issued. -/
theorem C10_counts_partition (failAt : Nat → Bool) (db : DB)
    (props : List Property) :
    (saveToDb failAt db props).2.1.new + (saveToDb failAt db props).2.1.updated +
        (saveToDb failAt db props).2.1.errors = props.length ∧
      saveToDb failAt db [] = (db, ⟨0, 0, 0⟩, []) := by
  refine ⟨?_, rfl⟩
  cases props with
  | nil => simp [saveToDb]
  | cons p rest => simpa [saveToDb] using saveLoop_counts failAt 0 db (p :: rest)

/-- C1: persisting a listing twice under one natural key records the first
call as one insert (`new`), the second as one replace (`updated`), and
leaves exactly one row for that key, holding the second listing's fields. -/
theorem saveOne_insert (db : DB) (p : Property)
    (hfilter : db.rows.filter (matchesKey p) = []) :
    saveOne false db p =
      (DB.mk (db.rows ++ [Row.mk db.nextId p]) (db.nextId + 1), ⟨1, 0, 0⟩,
        [DbOp.select, DbOp.insert]) := by
  unfold saveOne
  rw [if_neg (by simp)]
  rw [hfilter]

theorem saveOne_update (db : DB) (p : Property) (r : Row) (rest : List Row)
    (hfilter : db.rows.filter (matchesKey p) = r :: rest) :
    saveOne false db p =
      (DB.mk (db.rows.map (fun row => if row.id == r.id then Row.mk row.id p else row))
          db.nextId,
        ⟨0, 1, 0⟩, [DbOp.select, DbOp.update]) := by
  unfold saveOne
  rw [if_neg (by simp)]
  rw [hfilter]

theorem C1_upsert_natural_key (p p' : Property) (db : DB)
    (hsrc : p'.source = p.source) (hid : p'.external_id = p.external_id)
    (hnone : db.rows.filter (matchesKey p) = [])
    (hfresh : ∀ r ∈ db.rows, r.id ≠ db.nextId) :
    (saveToDb noFail db [p]).2.1 = ⟨1, 0, 0⟩ ∧
      (saveToDb noFail (saveToDb noFail db [p]).1 [p']).2.1 = ⟨0, 1, 0⟩ ∧
      (saveToDb noFail (saveToDb noFail db [p]).1 [p']).1.rows.filter (matchesKey p) =
        [⟨db.nextId, p'⟩] := by
  have hkey : matchesKey p' = matchesKey p := matchesKey_congr p p' hsrc hid
  have hstep1 : saveToDb noFail db [p] =
      (DB.mk (db.rows ++ [Row.mk db.nextId p]) (db.nextId + 1), ⟨1, 0, 0⟩,
        [DbOp.select, DbOp.insert]) := by
    simp [saveToDb, saveLoop, noFail, saveOne_insert db p hnone]
  have hfilter1 :
      (db.rows ++ [Row.mk db.nextId p]).filter (matchesKey p') = [Row.mk db.nextId p] := by
    rw [hkey, List.filter_append, hnone]
    simp [matchesKey_same p p db.nextId rfl rfl]
  have hmap :
      (db.rows ++ [Row.mk db.nextId p]).map
          (fun row => if row.id == db.nextId then Row.mk row.id p' else row) =
        db.rows ++ [Row.mk db.nextId p'] := by
    rw [List.map_append]
    congr 1
    · have h : ∀ r ∈ db.rows,
          (if r.id == db.nextId then Row.mk r.id p' else r) = id r := by
        intro r hr
        simp [hfresh r hr]
      exact (List.map_congr_left h).trans (List.map_id _)
    · simp
  have hsave2 :
      saveOne false (DB.mk (db.rows ++ [Row.mk db.nextId p]) (db.nextId + 1)) p' =
        (DB.mk (db.rows ++ [Row.mk db.nextId p']) (db.nextId + 1), ⟨0, 1, 0⟩,
          [DbOp.select, DbOp.update]) := by
    rw [saveOne_update _ p' (Row.mk db.nextId p) [] hfilter1]
    simp only
    rw [hmap]
  have hstep2 :
      saveToDb noFail (DB.mk (db.rows ++ [Row.mk db.nextId p]) (db.nextId + 1)) [p'] =
        (DB.mk (db.rows ++ [Row.mk db.nextId p']) (db.nextId + 1), ⟨0, 1, 0⟩,
          [DbOp.select, DbOp.update]) := by
    simp [saveToDb, saveLoop, noFail, hsave2]
  refine ⟨by rw [hstep1], by rw [hstep1, hstep2], ?_⟩
  rw [hstep1]
  rw [hstep2]
  simp only
  rw [List.filter_append, hnone]
  simp [matchesKey_same p p' db.nextId hsrc hid]

/-- Witness: the C1 upsert behavior at a concrete listing pair on the empty
store. -/
theorem C1_upsert_natural_key_witness :
    (saveToDb noFail ⟨[], 0⟩ [propEx]).2.1 = ⟨1, 0, 0⟩ ∧
      (saveToDb noFail (saveToDb noFail ⟨[], 0⟩ [propEx]).1 [propEx2]).2.1 = ⟨0, 1, 0⟩ ∧
      (saveToDb noFail (saveToDb noFail ⟨[], 0⟩ [propEx]).1 [propEx2]).1.rows.filter
          (matchesKey propEx) = [⟨0, propEx2⟩] :=
  C1_upsert_natural_key propEx propEx2 ⟨[], 0⟩ rfl rfl rfl (by simp)

/-- C2: a raising scrape stage is caught at the orchestrator boundary —
the run still completes, the raising source is listed under
`sources_failed` with its message in the error list, and a later stage that
completes still runs and lands in `sources_completed`. -/
theorem C2_stage_failure_isolated (msg : String)
    (onmapOutcome : Except String Nat) (n : Nat) :
    ∃ st : OrchStats,
      orchRun (.ok ()) onmapOutcome (.error msg) (.ok n) = .ok st ∧
        "yad2" ∈ st.sources_failed ∧ ("yad2: " ++ msg) ∈ st.errors ∧
        "madlan" ∈ st.sources_completed := by
  refine ⟨_, rfl, ?_, ?_, ?_⟩ <;>
    cases onmapOutcome <;> simp [orchRun, stageScrape, orchInit]

theorem scrollIters_le (beh : Nat → ScrollObs) :
    ∀ fuel t, scrollIters beh t fuel ≤ fuel := by
  intro fuel
  induction fuel with
  | zero => intro t; simp [scrollIters]
  | succ f ih =>
    intro t
    simp only [scrollIters]
    split_ifs <;> simp_all
    have := ih (t + 1)
    omega

/-- C5 (amended): the incremental-scroll loop performs at most `max_scrolls`
iterations against every surface behavior, where `max_scrolls` is the limit
when a nonzero limit is given and 50 otherwise (Python `limit if limit else
50`, so a zero limit falls back to 50). -/
theorem C5_scroll_iteration_bound (beh : Nat → ScrollObs) (limit : Option Nat) :
    scrollToLoadAllIters beh limit ≤ maxScrolls limit :=
  scrollIters_le beh (maxScrolls limit) 0

/-- C5 counterexample to the claim as stated: with the given limit 0 the
loop against an end-marker-free, always-growing surface performs 50
iterations, not at most the given limit. -/
theorem C5_claim_counterexample :
    scrollToLoadAllIters greedySurface (some 0) = 50 ∧
      ¬ scrollToLoadAllIters greedySurface (some 0) ≤ 0 := by
  constructor
  · rfl
  · decide

theorem pagesRequestedAux_length_le (beh : Nat → PageObs) :
    ∀ fuel s, (pagesRequestedAux beh s fuel).length ≤ fuel := by
  intro fuel
  induction fuel with
  | zero => intro s; simp [pagesRequestedAux]
  | succ f ih =>
    intro s
    simp only [pagesRequestedAux]
    split_ifs
    · simp
    · simp
    · simp only [List.length_cons]
      have := ih (s + 1)
      omega

theorem pagesRequestedAux_range' (beh : Nat → PageObs) :
    ∀ fuel s, pagesRequestedAux beh s fuel =
      List.range' s (pagesRequestedAux beh s fuel).length := by
  intro fuel
  induction fuel with
  | zero => intro s; simp [pagesRequestedAux]
  | succ f ih =>
    intro s
    simp only [pagesRequestedAux]
    split_ifs
    · simp [List.range'_succ]
    · simp [List.range'_succ]
    · rw [List.length_cons, List.range'_succ]
      exact congrArg (s :: ·) (ih (s + 1))

theorem pagesRequestedAux_zero_last (beh : Nat → PageObs) :
    ∀ fuel s p, p ∈ pagesRequestedAux beh s fuel → ¬ (beh p).fails = true →
      (beh p).yield = 0 →
      pagesRequestedAux beh s fuel = List.range' s (p + 1 - s) := by
  intro fuel
  induction fuel with
  | zero => intro s p hp; simp [pagesRequestedAux] at hp
  | succ f ih =>
    intro s p hp hnf hz
    simp only [pagesRequestedAux] at hp ⊢
    split_ifs at hp ⊢ with h1 h2
    · simp at hp
      subst hp
      exact absurd h1 hnf
    · simp at hp
      subst hp
      simp [List.range'_succ]
    · rcases List.mem_cons.mp hp with h | h
      · subst h
        exact absurd hz h2
      · have hs : s + 1 ≤ p := by
          have := (List.mem_range'_1).mp (by
            rw [pagesRequestedAux_range' beh f (s + 1)] at h
            exact h)
          exact this.1
        rw [ih (s + 1) p h hnf hz]
        have harith : p + 1 - s = (p + 1 - (s + 1)) + 1 := by omega
        rw [harith, List.range'_succ]

/-- C6: the paginated loop of Yad2 and Madlan requests pages `1..k` in
order for some `k` at most `max_pages`, and a requested page that yields
zero listings (without its body raising) is the last page requested. -/
theorem C6_paginated_page_loop (beh : Nat → PageObs) (maxPages : Nat) :
    (pagesRequested beh maxPages).length ≤ maxPages ∧
      pagesRequested beh maxPages =
        List.range' 1 (pagesRequested beh maxPages).length ∧
      ∀ p ∈ pagesRequested beh maxPages, ¬ (beh p).fails = true →
        (beh p).yield = 0 → pagesRequested beh maxPages = List.range' 1 p := by
  refine ⟨pagesRequestedAux_length_le beh maxPages 1,
    pagesRequestedAux_range' beh maxPages 1, ?_⟩
  intro p hp hnf hz
  have := pagesRequestedAux_zero_last beh maxPages 1 p hp hnf hz
  simpa [pagesRequested] using this

/-- A page behavior with three non-empty pages and empty pages afterwards. -/
def pageBehEx : Nat → PageObs := fun p => ⟨if p ≤ 2 then 4 else 0, false⟩

/-- Witness: the C6 page-loop shape at a concrete behavior whose third page
is empty, with page cap 7: pages 1, 2, 3 are requested and no more. -/
theorem C6_paginated_page_loop_witness :
    pagesRequested pageBehEx 7 = List.range' 1 3 ∧
      (pagesRequested pageBehEx 7).length ≤ 7 :=
  ⟨(C6_paginated_page_loop pageBehEx 7).2.2 3 (by decide) (by decide) (by decide),
    (C6_paginated_page_loop pageBehEx 7).1⟩

/-- Listings an Except-valued scrape action contributes: its list on
success, nothing on an exception. -/
def exceptListings {α : Type} (e : Except String (List α)) : List α :=
  match e with
  | .ok ps => ps
  | .error _ => []

theorem cityFilter_nil (cities : Option (List String)) :
    cityFilter cities [] = [] := by
  cases cities <;> simp [cityFilter]

theorem exceptListings_map (e : Except String (List Property))
    (cities : Option (List String)) :
    exceptListings (e.map (cityFilter cities)) = cityFilter cities (exceptListings e) := by
  cases e <;> simp [exceptListings, Except.map, cityFilter_nil]

theorem scrapeLoop_spec {α : Type} (known : List String)
    (action : String → Except String (List α)) :
    ∀ lts : List String,
      (scrapeLoop known action lts).warnings =
          lts.filter (fun t => !known.contains t) ∧
        (scrapeLoop known action lts).listings =
          (lts.filter (fun t => known.contains t)).flatMap
            (fun t => exceptListings (action t)) ∧
        (scrapeLoop known action lts).errors =
          (lts.filter (fun t => known.contains t && !(action t).isOk)).length := by
  intro lts
  induction lts with
  | nil => simp [scrapeLoop]
  | cons lt rest ih =>
    by_cases h : lt ∈ known
    · cases hact : action lt with
      | ok ps =>
        simp [scrapeLoop, h, hact, ih.1, ih.2.1, ih.2.2, exceptListings,
          Except.isOk, Except.toBool, List.filter_cons]
      | error e =>
        simp [scrapeLoop, h, hact, ih.1, ih.2.1, ih.2.2, exceptListings,
          Except.isOk, Except.toBool, List.filter_cons]
    · simp [scrapeLoop, h, ih.1, ih.2.1, ih.2.2]

/-- C7: for each adapter, `scrape` is a total function of its oracles (it
never raises), the listing types outside the adapter's URL table contribute
no listings and appear exactly as the warned-about types, and every known
type in the input set is still scraped, its results concatenated in order. -/
theorem C7_unknown_listing_type_skipped :
    (∀ (action : String → Except String (List Property)) (lts : List String),
        (yad2Scrape action (some lts)).warnings =
            lts.filter (fun t => !yad2UrlKeys.contains t) ∧
          (yad2Scrape action (some lts)).listings =
            (lts.filter (fun t => yad2UrlKeys.contains t)).flatMap
              (fun t => exceptListings (action t))) ∧
      (∀ (action : String → Except String (List Property)) (lts : List String),
        (madlanScrape action (some lts)).warnings =
            lts.filter (fun t => !madlanUrlKeys.contains t) ∧
          (madlanScrape action (some lts)).listings =
            (lts.filter (fun t => madlanUrlKeys.contains t)).flatMap
              (fun t => exceptListings (action t))) ∧
      (∀ (action : String → Except String (List Property))
          (cities : Option (List String)) (lts : List String),
        (onmapScrape action cities (some lts)).warnings =
            lts.filter (fun t => !onmapUrlKeys.contains t) ∧
          (onmapScrape action cities (some lts)).listings =
            (lts.filter (fun t => onmapUrlKeys.contains t)).flatMap
              (fun t => cityFilter cities (exceptListings (action t)))) := by
  refine ⟨?_, ?_, ?_⟩
  · intro action lts
    exact ⟨(scrapeLoop_spec yad2UrlKeys action lts).1,
      (scrapeLoop_spec yad2UrlKeys action lts).2.1⟩
  · intro action lts
    exact ⟨(scrapeLoop_spec madlanUrlKeys action lts).1,
      (scrapeLoop_spec madlanUrlKeys action lts).2.1⟩
  · intro action cities lts
    refine ⟨(scrapeLoop_spec onmapUrlKeys _ lts).1, ?_⟩
    rw [show (onmapScrape action cities (some lts)).listings =
        (scrapeLoop onmapUrlKeys (fun lt => (action lt).map (cityFilter cities)) lts).listings
      from rfl]
    rw [(scrapeLoop_spec onmapUrlKeys
      (fun lt => (action lt).map (cityFilter cities)) lts).2.1]
    simp [exceptListings_map]

theorem pageDelaysAux_mem (beh : Nat → PageObs) :
    ∀ fuel s x, x ∈ pageDelaysAux beh s fuel → x = 2 := by
  intro fuel
  induction fuel with
  | zero => intro s x hx; simp [pageDelaysAux] at hx
  | succ f ih =>
    intro s x hx
    simp only [pageDelaysAux] at hx
    split_ifs at hx
    · simp at hx
    · simp at hx
    · rcases List.mem_cons.mp hx with h | h
      · exact h
      · exact ih (s + 1) x h

theorem paginatedDelayTrace_mem (known : List String) (d : Nat)
    (beh : String → Nat → PageObs) (mp : Nat) :
    ∀ lts x, x ∈ paginatedDelayTrace known d beh mp lts → x = 2 ∨ x = d := by
  intro lts
  induction lts with
  | nil => intro x hx; simp [paginatedDelayTrace] at hx
  | cons lt rest ih =>
    intro x hx
    simp only [paginatedDelayTrace] at hx
    split_ifs at hx
    · rcases List.mem_append.mp hx with h1 | h1
      · exact Or.inl (pageDelaysAux_mem (beh lt) mp 1 x h1)
      · rcases List.mem_cons.mp h1 with h2 | h2
        · exact Or.inr h2
        · exact ih x h2
    · exact ih x hx

/-- C8 (amended): in the paginated adapters, the delay between listing
types is the configured `delay_seconds` (via `rate_limit`), while the delay
between consecutive page requests is a hard-coded 2 seconds — every delay
in the trace is one of the two. -/
theorem C8_delay_sources (d : Nat) (beh : String → Nat → PageObs)
    (limit : Option Nat) (lts : List String) :
    (∀ x ∈ yad2DelayTrace d beh limit lts, x = 2 ∨ x = d) ∧
      (∀ x ∈ madlanDelayTrace d beh limit lts, x = 2 ∨ x = d) :=
  ⟨fun x hx => paginatedDelayTrace_mem yad2UrlKeys d beh (yad2MaxPages limit) lts x hx,
    fun x hx => paginatedDelayTrace_mem madlanUrlKeys d beh (madlanMaxPages limit) lts x hx⟩

/-- A page behavior on which every page yields one listing and nothing
raises, so every page of the cap is visited. -/
def pageBehBusy : String → Nat → PageObs := fun _ _ => ⟨1, false⟩

/-- C8 counterexample to the claim as stated: with `delay_seconds = 5` the
Yad2 scrape trace still contains a 2-second delay — the inter-page delay is
hard-coded, not taken from the configured value. -/
theorem C8_claim_counterexample :
    2 ∈ yad2DelayTrace 5 pageBehBusy none ["buy"] ∧ (2 : Nat) ≠ 5 := by
  constructor
  · decide
  · decide

/-- Witness: the C8 delay classification at a concrete trace element. -/
theorem C8_delay_sources_witness :
    2 ∈ yad2DelayTrace 5 pageBehBusy none ["buy"] ∧
      ((2 : Nat) = 2 ∨ (2 : Nat) = 5) :=
  ⟨by decide, (C8_delay_sources 5 pageBehBusy none ["buy"]).1 2 (by decide)⟩

/-- C3 counterexample to the claim as stated: on the three-segment address
the OnMap decomposition keeps only the first segment as street, not the
joined remainder "Rothschild 12, Florentin". -/
theorem C3_claim_counterexample :
    onmapDecomposeAddress (some "Rothschild 12, Florentin, Tel Aviv") =
        (some "Rothschild 12", some "Tel Aviv") ∧
      (some "Rothschild 12" : Option String) ≠ some "Rothschild 12, Florentin" := by
  constructor
  · rfl
  · decide

/-- C3 (amended): every adapter takes the last comma segment (stripped) as
the city; Madlan joins the remaining stripped segments back as the street,
while OnMap and Yad2 keep only the first segment; on the two-segment
example all three agree. -/
theorem C3_address_decomposition (raw : String) (h1 : pyStrip raw ≠ "")
    (h2 : 2 ≤ (pySplitComma (pyStrip raw)).length) :
    onmapDecomposeAddress (some raw) =
        (some (pyStrip ((pySplitComma (pyStrip raw)).headD "")),
          some (pyStrip ((pySplitComma (pyStrip raw)).getLastD ""))) ∧
      yad2DecomposeAddress (some raw) =
        (some (((pySplitComma (pyStrip raw)).map pyStrip).headD ""),
          some (((pySplitComma (pyStrip raw)).map pyStrip).getLastD "")) ∧
      madlanDecomposeAddress (some raw) =
        (some (joinWith ", "
            ((pySplitComma (pyStrip raw)).map pyStrip).dropLast),
          some (((pySplitComma (pyStrip raw)).map pyStrip).getLastD "")) ∧
      onmapDecomposeAddress (some "Rothschild 12, Tel Aviv") =
          (some "Rothschild 12", some "Tel Aviv") ∧
        yad2DecomposeAddress (some "Rothschild 12, Tel Aviv") =
          (some "Rothschild 12", some "Tel Aviv") ∧
        madlanDecomposeAddress (some "Rothschild 12, Tel Aviv") =
          (some "Rothschild 12", some "Tel Aviv") := by
  refine ⟨?_, ?_, ?_, rfl, rfl, rfl⟩
  · simp [onmapDecomposeAddress, h1, h2]
  · simp [yad2DecomposeAddress, h1, h2]
  · simp [madlanDecomposeAddress, h1, h2]

/-- Witness: the C3 decomposition rules at the concrete two-segment
example address. -/
theorem C3_address_decomposition_witness :
    pyStrip "Rothschild 12, Tel Aviv" ≠ "" ∧
      2 ≤ (pySplitComma (pyStrip "Rothschild 12, Tel Aviv")).length ∧
      onmapDecomposeAddress (some "Rothschild 12, Tel Aviv") =
        (some (pyStrip ((pySplitComma (pyStrip "Rothschild 12, Tel Aviv")).headD "")),
          some (pyStrip ((pySplitComma (pyStrip "Rothschild 12, Tel Aviv")).getLastD ""))) :=
  ⟨by decide, by decide,
    (C3_address_decomposition "Rothschild 12, Tel Aviv" (by decide) (by decide)).1⟩

/-- C4 counterexample to the claim as stated: an OnMap card whose hyperlink
path carries the numeric id 12345 still receives the synthesized composite
external id — OnMap never consults the hyperlink. -/
theorem C4_claim_counterexample :
    onmapCardExternalId
        { linkHref := some "/12345", priceText := some "2,000,000",
          addressText := some "Herzl 5, Tel Aviv", areaText := some "80" } "buy" =
        "onmap_buy_Herzl 5_2000000_80" ∧
      "onmap_buy_Herzl 5_2000000_80" ≠ "onmap_" ++ "12345" := by
  constructor
  · rfl
  · decide

/-- C4 (amended): Yad2 and Madlan resolve the external id link-first and
fall back to the composite key; the OnMap external id is the composite key
and is independent of the card's hyperlink. -/
theorem C4_external_id_resolution :
    (∀ (c : Card) (href : Option String) (lt : String),
        onmapCardExternalId { c with linkHref := href } lt =
          onmapCardExternalId c lt) ∧
      (∀ (href n lt : String) (street : Option String) (price sqm : Option Int),
        yad2LinkId href = some n →
          yad2ExternalId (some href) lt street price sqm = "yad2_" ++ n) ∧
      (∀ (href lt : String) (street : Option String) (price sqm : Option Int),
        yad2LinkId href = none →
          yad2ExternalId (some href) lt street price sqm =
            "yad2_" ++ lt ++ "_" ++ pyShowOptStr street ++ "_" ++
              pyShowOptInt price ++ "_" ++ pyShowOptInt sqm) ∧
      (∀ (lt : String) (street : Option String) (price sqm : Option Int),
        yad2ExternalId none lt street price sqm =
          "yad2_" ++ lt ++ "_" ++ pyShowOptStr street ++ "_" ++
            pyShowOptInt price ++ "_" ++ pyShowOptInt sqm) ∧
      (∀ (href n lt : String) (street : Option String) (price : Option Int),
        madlanLinkId href = some n →
          madlanExternalId (some href) lt street price = "madlan_" ++ n) ∧
      (∀ (href lt : String) (street : Option String) (price : Option Int),
        madlanLinkId href = none →
          madlanExternalId (some href) lt street price =
            "madlan_" ++ lt ++ "_" ++ pyShowOptStr street ++ "_" ++
              pyShowOptInt price) := by
  refine ⟨?_, ?_, ?_, ?_, ?_, ?_⟩
  · intro c href lt
    rfl
  · intro href n lt street price sqm h
    simp [yad2ExternalId, h]
  · intro href lt street price sqm h
    simp [yad2ExternalId, h]
  · intro lt street price sqm
    rfl
  · intro href n lt street price h
    simp [madlanExternalId, h]
  · intro href lt street price h
    simp [madlanExternalId, h]

/-- Witness: the C4 resolution order at concrete hyperlinks. -/
theorem C4_external_id_resolution_witness :
    yad2LinkId "/item/777" = some "777" ∧
      yad2ExternalId (some "/item/777") "buy" (some "Herzl 5") (some 2000000)
          (some 80) = "yad2_" ++ "777" ∧
      madlanLinkId "/listing/42x" = some "42" ∧
      madlanExternalId (some "/listing/42x") "rent" (some "Dizengoff 1")
        (some 7500) = "madlan_" ++ "42" :=
  ⟨by decide,
    (C4_external_id_resolution).2.1 "/item/777" "777" "buy" (some "Herzl 5")
      (some 2000000) (some 80) (by decide),
    by decide,
    (C4_external_id_resolution).2.2.2.2.1 "/listing/42x" "42" "rent"
      (some "Dizengoff 1") (some 7500) (by decide)⟩

/-- C9: the run-log record's status is `completed` exactly when the
recorded error count is zero and `completed_with_errors` otherwise, a
successful insert writes exactly that record, and a failure writing the
record is swallowed: the outcome of the enclosing run does not depend on
whether the log insert raised. -/
theorem C9_log_status_and_swallow (source : String) (ltp : Option String)
    (stats : BaseStats) (sr : Except String (List Property))
    (failAt : Nat → Bool) (db : DB) :
    ((logRecordOf source ltp stats).status = "completed" ↔ stats.errors = 0) ∧
      ((logRecordOf source ltp stats).status = "completed_with_errors" ↔
        stats.errors ≠ 0) ∧
      logScrapeSession source ltp stats false = some (logRecordOf source ltp stats) ∧
      baseRun source sr failAt db true = baseRun source sr failAt db false := by
  refine ⟨?_, ?_, rfl, rfl⟩
  · by_cases h : stats.errors = 0 <;> simp [logRecordOf, h]
  · by_cases h : stats.errors = 0 <;> simp [logRecordOf, h]

/-- Witness: the C9 status rule at concrete error counts. -/
theorem C9_log_status_and_swallow_witness :
    (logRecordOf "onmap" none ⟨3, 1, 2, 0⟩).status = "completed" ∧
      (logRecordOf "onmap" none ⟨3, 1, 1, 1⟩).status = "completed_with_errors" :=
  ⟨(C9_log_status_and_swallow "onmap" none ⟨3, 1, 2, 0⟩ (.ok []) noFail
      ⟨[], 0⟩).1.mpr rfl,
    (C9_log_status_and_swallow "onmap" none ⟨3, 1, 1, 1⟩ (.ok []) noFail
      ⟨[], 0⟩).2.1.mpr (by decide)⟩

end ShamaiAI
